import Mathlib

/-!
Verification of the Cardano arbitrage bot's core against its specification.

The definitions below are a shallow embedding of the Python sources:
  - src/core/types.py              (Token, Asset)
  - src/core/pools/base.py         (BasePool.get_reserves, BasePoolHandler.*)
  - src/core/pools/minswap_v1.py   (MinswapV1Pool.pool_out / pool_in, create_pool)
  - src/core/orders/base.py        (BaseOrder.*, BaseOrderParser helpers)
  - src/core/orders/minswap_v1.py  (create_order)
  - src/core/sync/block_iterator.py (BlockIterator.iterate_blocks)
  - src/core/sync/processor.py     (BlockProcessor._process_transaction)

Python unbounded integers are modelled as Nat (all quantities involved are
non-negative on-chain amounts); Python `//` on non-negative operands is Nat
division.  Functions that raise for a token not contained in a pool return
Option.  Byte strings are modelled by their hex rendering (the code only ever
compares and stores `.hex()` forms).
-/

namespace ArbBot

/-! ### Tokens and assets (src/core/types.py) -/

/-- `Token` dataclass: a Cardano native token; ADA is the empty/empty pair. -/
structure Token where
  policy_id : String
  name : String
deriving DecidableEq, Repr

/-- `Token.is_ada` property. -/
def Token.is_ada (t : Token) : Bool := t.policy_id = "" && t.name = ""

/-- `Token.ada()` classmethod. -/
def Token.ada : Token := ⟨"", ""⟩

/-- `Asset` dataclass: a token with an amount. -/
structure Asset where
  amount : Nat
  token : Token
deriving DecidableEq, Repr

/-! ### Minswap V1 AMM math (src/core/pools/minswap_v1.py) -/

/-- `FEE_NUM` constant. -/
def FEE_NUM : Nat := 997

/-- `FEE_DEN` constant. -/
def FEE_DEN : Nat := 1000

/-- `MinswapV1Pool` dataclass (fields inherited from `BasePool`). -/
structure MinswapV1Pool where
  pool_id : String
  token_a : Token
  token_b : Token
  reserve_a : Nat
  reserve_b : Nat
  utxo_id : String
deriving DecidableEq, Repr

/-- `BasePool.pool_type` property; `MinswapV1Pool.POOL_TYPE = "minswap-v1"`. -/
def MinswapV1Pool.pool_type (_ : MinswapV1Pool) : String := "minswap-v1"

/-- `BasePool.get_reserves`: (reserve_in, reserve_out) oriented by the input
token; the Python `raise ValueError` for a foreign token is modelled as
`none`. -/
def MinswapV1Pool.get_reserves (p : MinswapV1Pool) (input_token : Token) :
    Option (Nat × Nat) :=
  if input_token = p.token_a then some (p.reserve_a, p.reserve_b)
  else if input_token = p.token_b then some (p.reserve_b, p.reserve_a)
  else none

/-- `MinswapV1Pool.pool_out`:
`amt_with_fee = input * FEE_NUM; (amt_with_fee * r_out) // (r_in * FEE_DEN + amt_with_fee)`. -/
def MinswapV1Pool.pool_out (p : MinswapV1Pool) (input_token : Token)
    (input_amount : Nat) : Option Nat :=
  (p.get_reserves input_token).map fun ro =>
    let amt_with_fee := input_amount * FEE_NUM
    (amt_with_fee * ro.2) / (ro.1 * FEE_DEN + amt_with_fee)

/-- The reserve orientation computed inline by `MinswapV1Pool.pool_in`:
`output_token == token_a → (reserve_b, reserve_a)`, else
`output_token == token_b → (reserve_a, reserve_b)`, else raise (none). -/
def MinswapV1Pool.reserves_for_output (p : MinswapV1Pool) (output_token : Token) :
    Option (Nat × Nat) :=
  if output_token = p.token_a then some (p.reserve_b, p.reserve_a)
  else if output_token = p.token_b then some (p.reserve_a, p.reserve_b)
  else none

/-- `MinswapV1Pool.pool_in`: the `output_amount >= r_out` guard returns the
sentinel `int(1e18) = 10^18`; otherwise
`(r_in * output * FEE_DEN) // ((r_out - output) * FEE_NUM) + 1`. -/
def MinswapV1Pool.pool_in (p : MinswapV1Pool) (output_token : Token)
    (output_amount : Nat) : Option Nat :=
  (p.reserves_for_output output_token).map fun ro =>
    if ro.2 ≤ output_amount then 10 ^ 18
    else (ro.1 * output_amount * FEE_DEN) / ((ro.2 - output_amount) * FEE_NUM) + 1

/-- A concrete pool used to evaluate the spec's worked example. -/
def examplePool : MinswapV1Pool :=
  ⟨"pool0", Token.ada, ⟨"aaaa", "bbbb"⟩, 1000000, 2000000, "tx#0"⟩

/-- The pool witnessing that `pool_in (pool_out x) ≥ x` fails. -/
def tinyPool : MinswapV1Pool :=
  ⟨"pool1", Token.ada, ⟨"aaaa", "bbbb"⟩, 1, 1000, "tx#1"⟩

/-- Underlying inequality for the amended round-trip claim: supplying
`pool_in y` of the input token always buys at least `y` of the output
token. -/
theorem pool_in_key_ineq (rin rout y : Nat) (hy : y < rout) :
    y * (rin * 1000 + (rin * y * 1000 / ((rout - y) * 997) + 1) * 997) ≤
      (rin * y * 1000 / ((rout - y) * 997) + 1) * 997 * rout := by
  set D := (rout - y) * 997 with hD
  have hDpos : 0 < D := Nat.mul_pos (by omega) (by norm_num)
  set q := rin * y * 1000 / D with hq
  have hkey : rin * y * 1000 < (q + 1) * D := by
    have h1 := Nat.div_add_mod (rin * y * 1000) D
    have h2 := Nat.mod_lt (rin * y * 1000) hDpos
    have h3 : D * q + rin * y * 1000 % D < D * q + D :=
      Nat.add_lt_add_left h2 _
    calc rin * y * 1000 = D * q + rin * y * 1000 % D := h1.symm
      _ < D * q + D := h3
      _ = (q + 1) * D := by ring
  rw [hD] at hkey
  zify [Nat.le_of_lt hy] at hkey ⊢
  nlinarith [hkey]

/-! ### Claims C1, C2, C6 -/

/-- C1: for every Minswap V1 pool and input token contained in it (with
reserves oriented as `(r_in, r_out)` by that token), `pool_out` equals
`floor((input * 997 * r_out) / (r_in * 1000 + input * 997))`; and on reserves
(1_000_000, 2_000_000) an input of 1000 yields exactly 1992. -/
theorem C1_pool_out_formula :
    (∀ (p : MinswapV1Pool) (t : Token) (x r_in r_out : Nat),
        p.get_reserves t = some (r_in, r_out) →
        p.pool_out t x = some ((x * 997 * r_out) / (r_in * 1000 + x * 997)))
    ∧ examplePool.pool_out Token.ada 1000 = some 1992 := by
  constructor
  · intro p t x r_in r_out h
    simp [MinswapV1Pool.pool_out, h, FEE_NUM, FEE_DEN]
  · decide

/-- Witness for C1: the universally quantified part applied to the
spec's worked example. -/
theorem C1_pool_out_formula_witness :
    examplePool.get_reserves Token.ada = some (1000000, 2000000) ∧
    examplePool.pool_out Token.ada 1000 =
      some ((1000 * 997 * 2000000) / (1000000 * 1000 + 1000 * 997)) :=
  ⟨rfl, C1_pool_out_formula.1 examplePool Token.ada 1000 1000000 2000000 rfl⟩

/-- C2 counterexample: the pool with reserves (reserve_a = 1,
reserve_b = 1000) and input x = 500 (positive, strictly below the
output-side reserve 1000) has `pool_out = 997` and then
`pool_in 997 = 334 < 500`, refuting `pool_in (pool_out x) ≥ x`. -/
theorem C2_roundtrip_counterexample :
    0 < tinyPool.reserve_a ∧ 0 < tinyPool.reserve_b ∧
    tinyPool.token_a ≠ tinyPool.token_b ∧
    0 < 500 ∧ 500 < tinyPool.reserve_b ∧
    tinyPool.pool_out tinyPool.token_a 500 = some 997 ∧
    tinyPool.pool_in tinyPool.token_b 997 = some 334 ∧
    ¬ (500 ≤ 334) := by
  refine ⟨by decide, by decide, by decide, by decide, by decide, ?_, ?_, by decide⟩
  · decide
  · decide

/-- C2 amended: the `+1` ceiling bias guarantees the opposite composition:
for every output demand `y` strictly below the output reserve, swapping the
`pool_in y` input forward returns at least `y` (`pool_out (pool_in y) ≥ y`);
the as-written `pool_in (pool_out x) ≥ x` fails (see the counterexample). -/
theorem C2_roundtrip_never_undersupplies (p : MinswapV1Pool) (tin tout : Token)
    (y rin rout : Nat)
    (hin : p.get_reserves tin = some (rin, rout))
    (hout : p.reserves_for_output tout = some (rin, rout))
    (hy : y < rout) :
    ∃ i o, p.pool_in tout y = some i ∧ p.pool_out tin i = some o ∧ y ≤ o := by
  set i := rin * y * 1000 / ((rout - y) * 997) + 1 with hi
  refine ⟨i, (i * FEE_NUM * rout) / (rin * FEE_DEN + i * FEE_NUM), ?_, ?_, ?_⟩
  · simp only [MinswapV1Pool.pool_in, hout, Option.map_some']
    rw [if_neg (by omega)]
    simp only [FEE_NUM, FEE_DEN, hi]
  · simp only [MinswapV1Pool.pool_out, hin, Option.map_some']
  · have hpos : 0 < rin * FEE_DEN + i * FEE_NUM := by
      have h1 : 0 < i := Nat.succ_pos _
      simp only [FEE_NUM, FEE_DEN]
      positivity
    refine (Nat.le_div_iff_mul_le hpos).mpr ?_
    simp only [FEE_NUM, FEE_DEN]
    have h2 := pool_in_key_ineq rin rout y hy
    rw [hi]
    exact h2

/-- Witness for C2's amended theorem at the example pool, y = 500. -/
theorem C2_roundtrip_witness :
    examplePool.get_reserves Token.ada = some (1000000, 2000000) ∧
    examplePool.reserves_for_output (⟨"aaaa", "bbbb"⟩ : Token) =
      some (1000000, 2000000) ∧
    500 < 2000000 ∧
    (∃ i o, examplePool.pool_in (⟨"aaaa", "bbbb"⟩ : Token) 500 = some i ∧
        examplePool.pool_out Token.ada i = some o ∧ 500 ≤ o) :=
  ⟨rfl, rfl, by norm_num,
    C2_roundtrip_never_undersupplies examplePool Token.ada ⟨"aaaa", "bbbb"⟩
      500 1000000 2000000 rfl rfl (by norm_num)⟩

/-- C6: for every pool and output token contained in it, `pool_in` returns the
sentinel `10^18` whenever `output_amount ≥ r_out`, and otherwise the divisor
`(r_out - output_amount) * 997` is strictly positive and the result is the
`+1`-biased quotient. -/
theorem C6_pool_in_guard (p : MinswapV1Pool) (tout : Token) (y rin rout : Nat)
    (h : p.reserves_for_output tout = some (rin, rout)) :
    (rout ≤ y → p.pool_in tout y = some (10 ^ 18)) ∧
    (y < rout →
      0 < (rout - y) * 997 ∧
      p.pool_in tout y = some ((rin * y * 1000) / ((rout - y) * 997) + 1)) := by
  constructor
  · intro hge
    simp only [MinswapV1Pool.pool_in, h, Option.map_some']
    rw [if_pos hge]
  · intro hlt
    refine ⟨Nat.mul_pos (by omega) (by norm_num), ?_⟩
    simp only [MinswapV1Pool.pool_in, h, Option.map_some']
    rw [if_neg (by omega)]
    rfl

/-- Witness for C6 at the example pool in both guard branches. -/
theorem C6_pool_in_guard_witness :
    examplePool.reserves_for_output (⟨"aaaa", "bbbb"⟩ : Token) =
      some (1000000, 2000000) ∧
    examplePool.pool_in (⟨"aaaa", "bbbb"⟩ : Token) 2000000 = some (10 ^ 18) ∧
    (0 < (2000000 - 500) * 997 ∧
      examplePool.pool_in (⟨"aaaa", "bbbb"⟩ : Token) 500 =
        some ((1000000 * 500 * 1000) / ((2000000 - 500) * 997) + 1)) :=
  ⟨rfl,
    (C6_pool_in_guard examplePool ⟨"aaaa", "bbbb"⟩ 2000000 1000000 2000000 rfl).1
      (by norm_num),
    (C6_pool_in_guard examplePool ⟨"aaaa", "bbbb"⟩ 500 1000000 2000000 rfl).2
      (by norm_num)⟩

/-! ### UTxO values and the pool handler (src/core/pools/base.py,
src/core/pools/minswap_v1.py, src/core/pools/__init__.py)

A UTxO's `value` dict `policy_id → asset_name → amount` is modelled as an
association list with Python-dict first-match lookup; a Python dict never
holds a duplicate key, so any dict is represented faithfully. -/

/-- One policy's assets: `asset_name → amount`. -/
abbrev AssetMap := List (String × Nat)

/-- A UTxO value: `policy_id → AssetMap` (the reserved key "ada" holds the
lovelace amount under the name "lovelace"). -/
abbrev ValueMap := List (String × AssetMap)

/-- Python dict `get`: first-match association lookup. -/
def vget : List (String × α) → String → Option α
  | [], _ => none
  | (k, v) :: rest, key => if k = key then some v else vget rest key

/-- `value.get("ada", {}).get("lovelace", 0)`. -/
def adaLovelace (v : ValueMap) : Nat :=
  match vget v "ada" with
  | none => 0
  | some assets =>
    match vget assets "lovelace" with
    | none => 0
    | some n => n

/-- The UTxO record shape consumed by the handlers (the dict built by the
fetcher/processor); only the fields the embedded functions read are kept. -/
structure UTxO where
  address : String
  value : ValueMap
  script_hash : Option String
  address_script_hash : Option String
deriving DecidableEq, Repr

/-- `POOL_NFT_POLICY` constant. -/
def POOL_NFT_POLICY : String :=
  "0be55d262b29f564998ff81efe21bdc0022621c12f15af08d0f2ddb1"

/-- `POOL_TOKEN_POLICY` constant. -/
def POOL_TOKEN_POLICY : String :=
  "13aa2accf2e1561723aa26871e071fdf32c867cff7e7d50ad470d62f"

/-- `LP_TOKEN_POLICY` constant. -/
def LP_TOKEN_POLICY : String :=
  "e4214b7cce62ac6fbba385d164df48e157eae5863521b4b67ca71d86"

/-- `MinswapV1PoolHandler.NFT_POLICIES`. -/
def MINSWAP_NFT_POLICIES : List String := [POOL_NFT_POLICY]

/-- `set(NFT_POLICIES + IGNORED_POLICIES)` as used by `extract_reserves`
(membership-only, so a list models the set). -/
def MINSWAP_IGNORED : List String :=
  [POOL_NFT_POLICY, POOL_TOKEN_POLICY, LP_TOKEN_POLICY]

/-- `BasePoolHandler.MIN_POOL_ADA`. -/
def MIN_POOL_ADA : Nat := 4000000

/-- `BasePoolHandler.extract_pool_nft_id`: scan the handler's NFT policies in
order; for the first one present in the value, return the first asset name
carrying amount exactly 1; a policy present without an amount-1 asset falls
through to the next policy. -/
def extract_pool_nft_id (policies : List String) (u : UTxO) : Option String :=
  go policies u.value
where
  /-- The `for policy in self.NFT_POLICIES` loop. -/
  go : List String → ValueMap → Option String
    | [], _ => none
    | p :: rest, v =>
      match vget v p with
      | none => go rest v
      | some assets =>
        match assets.find? (fun a => a.2 = 1) with
        | some a => some a.1
        | none => go rest v

/-- `BasePoolHandler.is_pool_utxo`. -/
def is_pool_utxo (policies : List String) (u : UTxO) : Bool :=
  (extract_pool_nft_id policies u).isSome

/-- The inner `for asset_name, amount in assets.items()` loop of
`extract_reserves`: overwrite `reserve_a`/`reserve_b` on a token match. -/
def reservesAssetLoop (ta tb : Token) (pid : String) :
    AssetMap → Nat × Nat → Nat × Nat
  | [], acc => acc
  | (name, amt) :: rest, acc =>
    if pid = ta.policy_id ∧ name = ta.name then
      reservesAssetLoop ta tb pid rest (amt, acc.2)
    else if pid = tb.policy_id ∧ name = tb.name then
      reservesAssetLoop ta tb pid rest (acc.1, amt)
    else
      reservesAssetLoop ta tb pid rest acc

/-- The outer `for policy_id, assets in value.items()` loop of
`extract_reserves`, skipping "ada" and ignored policies. -/
def reservesLoop (ta tb : Token) (ignored : List String) :
    ValueMap → Nat × Nat → Nat × Nat
  | [], acc => acc
  | (pid, assets) :: rest, acc =>
    if pid = "ada" ∨ pid ∈ ignored then
      reservesLoop ta tb ignored rest acc
    else
      reservesLoop ta tb ignored rest (reservesAssetLoop ta tb pid assets acc)

/-- `BasePoolHandler.extract_reserves`: run the loop from `(0, 0)`, then the
ADA branch: `if token_a.is_ada and ada >= MIN_POOL_ADA: reserve_a = ada`
`elif token_b.is_ada and ada >= MIN_POOL_ADA: reserve_b = ada`. -/
def extract_reserves (ignored : List String) (u : UTxO) (ta tb : Token) :
    Nat × Nat :=
  if ta.is_ada ∧ MIN_POOL_ADA ≤ adaLovelace u.value then
    (adaLovelace u.value, (reservesLoop ta tb ignored u.value (0, 0)).2)
  else if tb.is_ada ∧ MIN_POOL_ADA ≤ adaLovelace u.value then
    ((reservesLoop ta tb ignored u.value (0, 0)).1, adaLovelace u.value)
  else reservesLoop ta tb ignored u.value (0, 0)

/-- `PoolToken` datum record (byte fields in their `.hex()` rendering). -/
structure PoolToken where
  policy_id : String
  token_name : String
deriving DecidableEq, Repr

/-- `MinswapV1PoolDatum` record. -/
structure MinswapV1PoolDatum where
  token_a : PoolToken
  token_b : PoolToken
  total_liquidity : Nat
  root_k_last : Nat
deriving DecidableEq, Repr

/-- `Token(policy_id=pt.policy_id.hex(), name=pt.token_name.hex())`. -/
def tokenOfPoolToken (pt : PoolToken) : Token := ⟨pt.policy_id, pt.token_name⟩

/-- `MinswapV1PoolHandler.create_pool`.  Note the Python `if not pool_id`
also rejects an empty NFT asset name. -/
def create_pool (u : UTxO) (d : MinswapV1PoolDatum) (utxo_id : String) :
    Option MinswapV1Pool :=
  match extract_pool_nft_id MINSWAP_NFT_POLICIES u with
  | none => none
  | some pool_id =>
    if pool_id = "" then none
    else if (extract_reserves MINSWAP_IGNORED u (tokenOfPoolToken d.token_a)
                (tokenOfPoolToken d.token_b)).1 = 0 ∨
            (extract_reserves MINSWAP_IGNORED u (tokenOfPoolToken d.token_a)
                (tokenOfPoolToken d.token_b)).2 = 0 then none
    else some ⟨pool_id, tokenOfPoolToken d.token_a, tokenOfPoolToken d.token_b,
      (extract_reserves MINSWAP_IGNORED u (tokenOfPoolToken d.token_a)
          (tokenOfPoolToken d.token_b)).1,
      (extract_reserves MINSWAP_IGNORED u (tokenOfPoolToken d.token_a)
          (tokenOfPoolToken d.token_b)).2, utxo_id⟩

/-- `BasePoolHandler.parse_pool`: `parse_datum` (CBOR decode) is modelled by
its result — `none` when decoding raised, `some d` on success — and the
`except Exception: return None` wrapper is the `Option.bind`. -/
def parse_pool (decoded : Option MinswapV1PoolDatum) (u : UTxO)
    (utxo_id : String) : Option MinswapV1Pool :=
  match decoded with
  | none => none
  | some d => create_pool u d utxo_id

/-- The registered pool handlers, keyed by pool type
(`HANDLERS` in src/core/pools/__init__.py has the single Minswap V1 entry). -/
inductive PoolHandlerId
  | minswapV1
deriving DecidableEq, Repr

/-- `_NFT_TO_TYPE`: NFT policy → pool type, built from the registry. -/
def nftToType (policy : String) : Option String :=
  if policy = POOL_NFT_POLICY then some "minswap-v1" else none

/-- `HANDLERS.get`. -/
def handlersGet (poolType : String) : Option PoolHandlerId :=
  if poolType = "minswap-v1" then some PoolHandlerId.minswapV1 else none

/-- `get_handler_for_nft`: `HANDLERS.get(_NFT_TO_TYPE.get(policy_id))`
(a miss at either level yields None). -/
def get_handler_for_nft (policy : String) : Option PoolHandlerId :=
  match nftToType policy with
  | none => none
  | some t => handlersGet t

/-! ### Claims C5, C7, C9 -/

/-- `Token.is_ada` unfolded. -/
lemma is_ada_iff (t : Token) : t.is_ada = true ↔ t.policy_id = "" ∧ t.name = "" := by
  simp [Token.is_ada]

/-- The inner asset loop never writes `reserve_a` when the policy differs
from `token_a`'s. -/
lemma reservesAssetLoop_fst (ta tb : Token) (pid : String)
    (h : pid ≠ ta.policy_id) :
    ∀ (assets : AssetMap) (acc : Nat × Nat),
      (reservesAssetLoop ta tb pid assets acc).1 = acc.1 := by
  intro assets
  induction assets with
  | nil => intro acc; rfl
  | cons e rest ih =>
    intro acc
    obtain ⟨name, amt⟩ := e
    simp only [reservesAssetLoop]
    rw [if_neg (by tauto)]
    split
    · exact ih _
    · exact ih _

/-- The inner asset loop never writes `reserve_b` when the policy differs
from `token_b`'s. -/
lemma reservesAssetLoop_snd (ta tb : Token) (pid : String)
    (h : pid ≠ tb.policy_id) :
    ∀ (assets : AssetMap) (acc : Nat × Nat),
      (reservesAssetLoop ta tb pid assets acc).2 = acc.2 := by
  intro assets
  induction assets with
  | nil => intro acc; rfl
  | cons e rest ih =>
    intro acc
    obtain ⟨name, amt⟩ := e
    simp only [reservesAssetLoop]
    split
    · exact ih _
    · rw [if_neg (by tauto)]
      exact ih _

/-- Over a value whose policy keys are all non-empty, the loop leaves the
native-currency (`policy_id = ""`) side untouched. -/
lemma reservesLoop_fst (ta tb : Token) (ignored : List String)
    (hta : ta.policy_id = "") :
    ∀ (v : ValueMap), (∀ e ∈ v, e.1 ≠ "") →
      ∀ acc, (reservesLoop ta tb ignored v acc).1 = acc.1 := by
  intro v
  induction v with
  | nil => intro _ acc; rfl
  | cons e rest ih =>
    intro hwf acc
    obtain ⟨pid, assets⟩ := e
    have hpid : pid ≠ "" := hwf ⟨pid, assets⟩ (List.mem_cons_self _ _)
    have hrest : ∀ e ∈ rest, e.1 ≠ "" := fun e he => hwf e (List.mem_cons_of_mem _ he)
    simp only [reservesLoop]
    split
    · exact ih hrest acc
    · rw [ih hrest _, reservesAssetLoop_fst ta tb pid (by rw [hta]; exact hpid)]

/-- Symmetric statement for the second reserve. -/
lemma reservesLoop_snd (ta tb : Token) (ignored : List String)
    (htb : tb.policy_id = "") :
    ∀ (v : ValueMap), (∀ e ∈ v, e.1 ≠ "") →
      ∀ acc, (reservesLoop ta tb ignored v acc).2 = acc.2 := by
  intro v
  induction v with
  | nil => intro _ acc; rfl
  | cons e rest ih =>
    intro hwf acc
    obtain ⟨pid, assets⟩ := e
    have hpid : pid ≠ "" := hwf ⟨pid, assets⟩ (List.mem_cons_self _ _)
    have hrest : ∀ e ∈ rest, e.1 ≠ "" := fun e he => hwf e (List.mem_cons_of_mem _ he)
    simp only [reservesLoop]
    split
    · exact ih hrest acc
    · rw [ih hrest _, reservesAssetLoop_snd ta tb pid (by rw [htb]; exact hpid)]

/-- `create_pool` returns `none` whenever either extracted reserve is zero. -/
lemma create_pool_zero_reject (u : UTxO) (d : MinswapV1PoolDatum) (uid : String)
    (h : (extract_reserves MINSWAP_IGNORED u (tokenOfPoolToken d.token_a)
            (tokenOfPoolToken d.token_b)).1 = 0 ∨
         (extract_reserves MINSWAP_IGNORED u (tokenOfPoolToken d.token_a)
            (tokenOfPoolToken d.token_b)).2 = 0) :
    create_pool u d uid = none := by
  unfold create_pool
  cases hnft : extract_pool_nft_id MINSWAP_NFT_POLICIES u with
  | none => rfl
  | some pid =>
    dsimp only
    by_cases hpid : pid = ""
    · rw [if_pos hpid]
    · rw [if_neg hpid, if_pos h]

/-- Any pool produced by `create_pool` has both reserves positive. -/
lemma create_pool_some_pos (u : UTxO) (d : MinswapV1PoolDatum) (uid : String)
    (p : MinswapV1Pool) (h : create_pool u d uid = some p) :
    0 < p.reserve_a ∧ 0 < p.reserve_b := by
  unfold create_pool at h
  split at h
  · exact absurd h (by simp)
  · split at h
    · exact absurd h (by simp)
    · split at h
      · exact absurd h (by simp)
      · rename_i hz
        push_neg at hz
        cases h
        exact ⟨Nat.pos_of_ne_zero hz.1, Nat.pos_of_ne_zero hz.2⟩

/-- C5: a candidate whose extracted reserves include a zero yields no pool
(`create_pool`, hence `parse_pool`, returns None); consequently every
constructed pool has `reserve_a > 0` and `reserve_b > 0`. -/
theorem C5_zero_reserve_rejected :
    (∀ (u : UTxO) (d : MinswapV1PoolDatum) (uid : String),
      ((extract_reserves MINSWAP_IGNORED u (tokenOfPoolToken d.token_a)
          (tokenOfPoolToken d.token_b)).1 = 0 ∨
       (extract_reserves MINSWAP_IGNORED u (tokenOfPoolToken d.token_a)
          (tokenOfPoolToken d.token_b)).2 = 0) →
      create_pool u d uid = none ∧ parse_pool (some d) u uid = none)
    ∧ (∀ (u : UTxO) (d : MinswapV1PoolDatum) (uid : String) (p : MinswapV1Pool),
        create_pool u d uid = some p → 0 < p.reserve_a ∧ 0 < p.reserve_b)
    ∧ (∀ (dec : Option MinswapV1PoolDatum) (u : UTxO) (uid : String)
        (p : MinswapV1Pool),
        parse_pool dec u uid = some p → 0 < p.reserve_a ∧ 0 < p.reserve_b) := by
  refine ⟨?_, create_pool_some_pos, ?_⟩
  · intro u d uid h
    exact ⟨create_pool_zero_reject u d uid h, create_pool_zero_reject u d uid h⟩
  · intro dec u uid p h
    cases dec with
    | none => exact absurd h (by simp [parse_pool])
    | some d => exact create_pool_some_pos u d uid p h

/-- Witness for C5: a concrete candidate whose only asset is the pool NFT
(so both reserves extract to zero) is rejected, and a concrete funded
candidate yields a pool with positive reserves. -/
theorem C5_zero_reserve_rejected_witness :
    ((extract_reserves MINSWAP_IGNORED
        ⟨"addr", [(POOL_NFT_POLICY, [("nft01", 1)])], none, none⟩
        (tokenOfPoolToken ⟨"", ""⟩) (tokenOfPoolToken ⟨"cccc", "dddd"⟩)).1 = 0 ∨
     (extract_reserves MINSWAP_IGNORED
        ⟨"addr", [(POOL_NFT_POLICY, [("nft01", 1)])], none, none⟩
        (tokenOfPoolToken ⟨"", ""⟩) (tokenOfPoolToken ⟨"cccc", "dddd"⟩)).2 = 0) ∧
    create_pool ⟨"addr", [(POOL_NFT_POLICY, [("nft01", 1)])], none, none⟩
      ⟨⟨"", ""⟩, ⟨"cccc", "dddd"⟩, 0, 0⟩ "tx#9" = none :=
  ⟨by decide,
    (C5_zero_reserve_rejected.1
      ⟨"addr", [(POOL_NFT_POLICY, [("nft01", 1)])], none, none⟩
      ⟨⟨"", ""⟩, ⟨"cccc", "dddd"⟩, 0, 0⟩ "tx#9" (by decide)).1⟩

/-- C9: with a well-formed value map (no empty policy-id key, per the
boundary data shape where keys are "ada" or 28-byte policy hashes), the
native-currency reserve is the UTxO's lovelace amount when that is at least
`MIN_POOL_ADA = 4_000_000` and 0 otherwise; hence `create_pool` rejects every
ADA-paired candidate holding fewer than 4,000,000 lovelace. -/
theorem C9_min_ada_threshold :
    (∀ (ignored : List String) (u : UTxO) (ta tb : Token),
      (∀ e ∈ u.value, e.1 ≠ "") → ta.is_ada = true →
      (extract_reserves ignored u ta tb).1 =
        if MIN_POOL_ADA ≤ adaLovelace u.value then adaLovelace u.value else 0)
    ∧ (∀ (ignored : List String) (u : UTxO) (ta tb : Token),
      (∀ e ∈ u.value, e.1 ≠ "") → ta.is_ada = false → tb.is_ada = true →
      (extract_reserves ignored u ta tb).2 =
        if MIN_POOL_ADA ≤ adaLovelace u.value then adaLovelace u.value else 0)
    ∧ (∀ (u : UTxO) (d : MinswapV1PoolDatum) (uid : String),
      (∀ e ∈ u.value, e.1 ≠ "") →
      ((tokenOfPoolToken d.token_a).is_ada = true ∨
        (tokenOfPoolToken d.token_b).is_ada = true) →
      adaLovelace u.value < MIN_POOL_ADA →
      create_pool u d uid = none) := by
  have hfst : ∀ (ignored : List String) (u : UTxO) (ta tb : Token),
      (∀ e ∈ u.value, e.1 ≠ "") → ta.is_ada = true →
      (extract_reserves ignored u ta tb).1 =
        if MIN_POOL_ADA ≤ adaLovelace u.value then adaLovelace u.value else 0 := by
    intro ignored u ta tb hwf hada
    have hpid : ta.policy_id = "" := ((is_ada_iff ta).mp hada).1
    unfold extract_reserves
    by_cases hmin : MIN_POOL_ADA ≤ adaLovelace u.value
    · rw [if_pos ⟨hada, hmin⟩, if_pos hmin]
    · rw [if_neg (by tauto), if_neg hmin]
      split
      · exact reservesLoop_fst ta tb ignored hpid u.value hwf (0, 0)
      · exact reservesLoop_fst ta tb ignored hpid u.value hwf (0, 0)
  have hsnd : ∀ (ignored : List String) (u : UTxO) (ta tb : Token),
      (∀ e ∈ u.value, e.1 ≠ "") → ta.is_ada = false → tb.is_ada = true →
      (extract_reserves ignored u ta tb).2 =
        if MIN_POOL_ADA ≤ adaLovelace u.value then adaLovelace u.value else 0 := by
    intro ignored u ta tb hwf hnota hada
    have hpid : tb.policy_id = "" := ((is_ada_iff tb).mp hada).1
    unfold extract_reserves
    rw [if_neg (by simp [hnota])]
    by_cases hmin : MIN_POOL_ADA ≤ adaLovelace u.value
    · rw [if_pos ⟨hada, hmin⟩, if_pos hmin]
    · rw [if_neg (by tauto), if_neg hmin]
      exact reservesLoop_snd ta tb ignored hpid u.value hwf (0, 0)
  refine ⟨hfst, hsnd, ?_⟩
  intro u d uid hwf hada hlt
  apply create_pool_zero_reject
  by_cases ha : (tokenOfPoolToken d.token_a).is_ada = true
  · left
    rw [hfst MINSWAP_IGNORED u _ _ hwf ha, if_neg (by omega)]
  · right
    have hb : (tokenOfPoolToken d.token_b).is_ada = true := by
      rcases hada with h | h
      · exact absurd h ha
      · exact h
    rw [hsnd MINSWAP_IGNORED u _ _ hwf (by simpa using ha) hb, if_neg (by omega)]

/-- Witness for C9: an ADA/token candidate holding 3,999,999 lovelace has a
zero ADA reserve and is rejected by `create_pool`. -/
theorem C9_min_ada_threshold_witness :
    ((extract_reserves MINSWAP_IGNORED
        ⟨"addr", [("ada", [("lovelace", 3999999)]),
          (POOL_NFT_POLICY, [("nft01", 1)]), ("cccc", [("dddd", 77)])], none, none⟩
        (Token.ada) (⟨"cccc", "dddd"⟩ : Token)).1 = 0) ∧
    create_pool
      ⟨"addr", [("ada", [("lovelace", 3999999)]),
        (POOL_NFT_POLICY, [("nft01", 1)]), ("cccc", [("dddd", 77)])], none, none⟩
      ⟨⟨"", ""⟩, ⟨"cccc", "dddd"⟩, 0, 0⟩ "tx#9" = none := by
  constructor
  · rw [C9_min_ada_threshold.1 MINSWAP_IGNORED _ Token.ada ⟨"cccc", "dddd"⟩
      (by decide) (by decide)]
    decide
  · exact C9_min_ada_threshold.2.2 _ ⟨⟨"", ""⟩, ⟨"cccc", "dddd"⟩, 0, 0⟩ "tx#9"
      (by decide) (by decide) (by decide)

/-- The NFT scan succeeds exactly when some registered policy carries an
asset of amount exactly 1. -/
lemma nft_go_isSome_iff (v : ValueMap) :
    ∀ policies : List String,
      (extract_pool_nft_id.go policies v).isSome = true ↔
        ∃ p ∈ policies, ∃ assets, vget v p = some assets ∧ ∃ a ∈ assets, a.2 = 1 := by
  intro policies
  induction policies with
  | nil => simp [extract_pool_nft_id.go]
  | cons p rest ih =>
    simp only [extract_pool_nft_id.go]
    cases hv : vget v p with
    | none =>
      dsimp only
      rw [ih]
      constructor
      · rintro ⟨q, hq, hrest⟩
        exact ⟨q, List.mem_cons_of_mem _ hq, hrest⟩
      · rintro ⟨q, hq, assets, hassets, ha⟩
        rcases List.mem_cons.mp hq with rfl | hq
        · rw [hv] at hassets; exact absurd hassets (by simp)
        · exact ⟨q, hq, assets, hassets, ha⟩
    | some assets =>
      dsimp only
      cases hf : assets.find? (fun a => a.2 = 1) with
      | some a =>
        dsimp only
        simp only [Option.isSome_some, true_iff]
        refine ⟨p, List.mem_cons_self _ _, assets, hv,
          a, List.mem_of_find?_eq_some hf, ?_⟩
        have := List.find?_some hf
        simpa using this
      | none =>
        dsimp only
        rw [ih]
        constructor
        · rintro ⟨q, hq, hrest⟩
          exact ⟨q, List.mem_cons_of_mem _ hq, hrest⟩
        · rintro ⟨q, hq, assets2, hassets, a, ha, hone⟩
          rcases List.mem_cons.mp hq with rfl | hq
          · rw [hv] at hassets
            cases hassets
            have := List.find?_eq_none.mp hf a ha
            simp [hone] at this
          · exact ⟨q, hq, assets2, hassets, a, ha, hone⟩

/-- C7: `is_pool_utxo` holds iff the value carries, under one of the
handler's registered NFT policies, some asset with amount exactly 1; an
amount-2 asset under the registered policy is not a candidate, an amount-1
asset under an unregistered policy is not a candidate, and registry dispatch
returns no handler for an unregistered policy. -/
theorem C7_nft_prefilter :
    (∀ (policies : List String) (u : UTxO),
      is_pool_utxo policies u = true ↔
        ∃ p ∈ policies, ∃ assets, vget u.value p = some assets ∧
          ∃ a ∈ assets, a.2 = 1)
    ∧ is_pool_utxo MINSWAP_NFT_POLICIES
        ⟨"addr", [(POOL_NFT_POLICY, [("nft01", 2)])], none, none⟩ = false
    ∧ is_pool_utxo MINSWAP_NFT_POLICIES
        ⟨"addr", [("ffffffffffffffffffffffffffffffffffffffffffffffffffffffff",
          [("nft01", 1)])], none, none⟩ = false
    ∧ get_handler_for_nft
        "ffffffffffffffffffffffffffffffffffffffffffffffffffffffff" = none
    ∧ get_handler_for_nft POOL_NFT_POLICY = some PoolHandlerId.minswapV1
    ∧ is_pool_utxo MINSWAP_NFT_POLICIES
        ⟨"addr", [(POOL_NFT_POLICY, [("nft01", 1)])], none, none⟩ = true := by
  refine ⟨?_, by decide, by decide, by decide, by decide, by decide⟩
  intro policies u
  unfold is_pool_utxo extract_pool_nft_id
  exact nft_go_isSome_iff u.value policies

/-! ### Orders (src/core/orders/base.py, src/core/orders/minswap_v1.py) -/

/-- `ExecutionResult` dataclass. -/
structure ExecutionResult where
  output_amount : Nat
  satisfies_min : Bool
  profit_vs_min : Int
deriving DecidableEq, Repr

/-- `MinswapV1Order` dataclass (fields inherited from `BaseOrder`; the class
adds no attribute of its own). -/
structure MinswapV1Order where
  order_id : String
  bid_asset : Asset
  ask_asset : Asset
  batcher_fee : Nat
  deposit : Nat
  sender : String × Option String
  beneficiary : String × Option String
  utxo_id : String
  target_pool_id : Option String
deriving DecidableEq, Repr

/-- `MinswapV1Order.POOL_TYPE`. -/
def ORDER_POOL_TYPE : String := "minswap-v1"

/-- `MinswapV1Order.ORDER_TYPE`. -/
def ORDER_TYPE_STR : String := "minswap-v1"

/-- `BaseOrder.bid_token` property. -/
def MinswapV1Order.bid_token (o : MinswapV1Order) : Token := o.bid_asset.token

/-- `BaseOrder.ask_token` property. -/
def MinswapV1Order.ask_token (o : MinswapV1Order) : Token := o.ask_asset.token

/-- `BaseOrder.can_match_pool`: pool type must equal the order's declared
`POOL_TYPE` and the pool's token pair must equal the order's bid/ask pair as
Python sets (`{pool.token_a, pool.token_b} == {bid_token, ask_token}`). -/
def MinswapV1Order.can_match_pool (o : MinswapV1Order) (p : MinswapV1Pool) :
    Bool :=
  if p.pool_type ≠ ORDER_POOL_TYPE then false
  else decide (({p.token_a, p.token_b} : Finset Token) =
    {o.bid_token, o.ask_token})

/-- `BaseOrder.simulate`: the `pool.pool_out` call raises when `bid_token` is
not in the pool (none); otherwise returns the execution result. -/
def MinswapV1Order.simulate (o : MinswapV1Order) (p : MinswapV1Pool) :
    Option ExecutionResult :=
  (p.pool_out o.bid_token o.bid_asset.amount).map fun out =>
    ⟨out, decide (o.ask_asset.amount ≤ out),
      (out : Int) - (o.ask_asset.amount : Int)⟩

/-- `BaseOrder.would_satisfy`: `can_match_pool(pool) and
simulate(pool).satisfies_min` (short-circuit: when `can_match_pool` holds the
bid token is in the pool, so `simulate` is `some`; the `none` arm is
unreachable). -/
def MinswapV1Order.would_satisfy (o : MinswapV1Order) (p : MinswapV1Pool) :
    Bool :=
  o.can_match_pool p &&
    match o.simulate p with
    | some r => r.satisfies_min
    | none => false

/-! ### Claim C8 -/

/-- C8: `would_satisfy` holds iff `can_match_pool` holds and the simulated
output is at least the ask amount; and `can_match_pool` holds iff the pool
type matches the order's declared pool type and the pool's token pair equals
the order's bid/ask pair as sets. -/
theorem C8_would_satisfy_iff (o : MinswapV1Order) (p : MinswapV1Pool) :
    (o.would_satisfy p = true ↔
      o.can_match_pool p = true ∧
        ∃ out, p.pool_out o.bid_token o.bid_asset.amount = some out ∧
          o.ask_asset.amount ≤ out)
    ∧ (o.can_match_pool p = true ↔
        p.pool_type = ORDER_POOL_TYPE ∧
          ({p.token_a, p.token_b} : Finset Token) =
            {o.bid_token, o.ask_token}) := by
  constructor
  · unfold MinswapV1Order.would_satisfy MinswapV1Order.simulate
    cases hpo : p.pool_out o.bid_token o.bid_asset.amount with
    | none => simp [hpo]
    | some out => simp [hpo]
  · simp [MinswapV1Order.can_match_pool, MinswapV1Pool.pool_type,
      ORDER_POOL_TYPE]

/-! ### Order parsing and the block processor
(src/core/orders/base.py, src/core/orders/minswap_v1.py,
src/core/sync/processor.py)

The CBOR layer is not re-modelled: a transaction output's `datum` slot holds
the decoded `MinswapV1OrderDatum` when its hex payload is a valid encoding
(`parse_datum` is then the identity on it) and `none` otherwise.  Claim C4
feeds the pipeline a valid encoded datum, so only the post-decode behaviour
is at stake. -/

/-- `ORDER_SCRIPT_HASH` constant. -/
def ORDER_SCRIPT_HASH : String :=
  "c620c56751448d1a92184c8f506a4d1f31fc53e55fdd694c8bcda6fa"

/-- `ORDER_ADDRESS` constant. -/
def ORDER_ADDRESS : String :=
  "addr1zxn9efv2f6w82hagxqtn62ju4m293tqvw0uhmdl64ch8uw6j2c79gy9l76sdg0xwhd7r0c0kna0tycz4y5s6mlenh8pq6s3z70"

/-- `MinswapV1OrderParser.SCRIPT_HASHES`. -/
def MINSWAP_ORDER_SCRIPT_HASHES : List String := [ORDER_SCRIPT_HASH]

/-- A decoded Plutus address: payment key hash plus optional staking hash
(`_extract_address` renders both via `.hex()`; `staking_key_hash` is `some`
exactly when the datum's `staking_outer` is a `StakingOuter` constructor). -/
structure PlutusAddress where
  pub_key_hash : String
  staking_key_hash : Option String
deriving DecidableEq, Repr

/-- `BuyToken` datum record. -/
structure BuyToken where
  policy_id : String
  token_name : String
deriving DecidableEq, Repr

/-- `BuyAsset` datum record. -/
structure BuyAsset where
  token : BuyToken
  amount : Nat
deriving DecidableEq, Repr

/-- `MinswapV1OrderDatum` record (the unread
`optional_receiver_datum_hash` field is omitted: `create_order` never touches
it). -/
structure MinswapV1OrderDatum where
  sender_address : PlutusAddress
  receiver_address : PlutusAddress
  buy_asset : BuyAsset
  batcher_fee : Nat
  deposit : Nat
deriving DecidableEq, Repr

/-- `utxo.get("script_hash") or utxo.get("address_script_hash", "")`
(Python falsy chaining: a missing or empty `script_hash` falls back). -/
def effective_script_hash (u : UTxO) : String :=
  match u.script_hash with
  | some s => if s = "" then u.address_script_hash.getD "" else s
  | none => u.address_script_hash.getD ""

/-- `BaseOrderParser.is_order_utxo`. -/
def is_order_utxo (scriptHashes : List String) (u : UTxO) : Bool :=
  decide (effective_script_hash u ∈ scriptHashes)

/-- The non-ADA asset list comprehension of `extract_bid_asset_from_utxo`
(in value-iteration order, skipping "ada", ignored policies and zero
amounts). -/
def nonAdaAssets (v : ValueMap) (ignore : List String) : List Asset :=
  (v.filter (fun e => e.1 ≠ "ada" ∧ e.1 ∉ ignore)).flatMap fun e =>
    (e.2.filter (fun a => 0 < a.2)).map fun a => ⟨a.2, ⟨e.1, a.1⟩⟩

/-- Python `max(non_ada, key=lambda a: a.amount)`: the first asset of maximal
amount (later elements replace only on a strictly larger key). -/
def maxByAmount : List Asset → Option Asset
  | [] => none
  | a :: rest =>
    some (rest.foldl (fun best x => if best.amount < x.amount then x else best) a)

/-- `BaseOrderParser.extract_bid_asset_from_utxo`: highest-amount non-ADA
token, or ADA minus fees (`max(0, ada - subtract)` is Nat subtraction). -/
def extract_bid_asset_from_utxo (v : ValueMap) (subtract_lovelace : Nat)
    (ignore_policies : List String) : Asset :=
  match maxByAmount (nonAdaAssets v ignore_policies) with
  | some a => a
  | none => ⟨adaLovelace v - subtract_lovelace, Token.ada⟩

/-- `MinswapV1OrderParser.create_order` (called with the default
`ignore_policies = None`, i.e. the empty list). -/
def create_order (u : UTxO) (d : MinswapV1OrderDatum) (utxo_id : String) :
    MinswapV1Order :=
  { order_id := utxo_id
    bid_asset := extract_bid_asset_from_utxo u.value (d.batcher_fee + d.deposit) []
    ask_asset := ⟨d.buy_asset.amount,
      ⟨d.buy_asset.token.policy_id, d.buy_asset.token.token_name⟩⟩
    batcher_fee := d.batcher_fee
    deposit := d.deposit
    sender := (d.sender_address.pub_key_hash, d.sender_address.staking_key_hash)
    beneficiary := (d.receiver_address.pub_key_hash,
      d.receiver_address.staking_key_hash)
    utxo_id := utxo_id
    target_pool_id := none }

/-- A transaction output as delivered in a block. -/
structure TxOutput where
  address : String
  value : ValueMap
  datum : Option MinswapV1OrderDatum
deriving DecidableEq, Repr

/-- A block transaction. -/
structure Tx where
  id : String
  outputs : List TxOutput
deriving DecidableEq, Repr

/-- A block (only the field `_process_transaction` reads). -/
structure Block where
  transactions : List Tx
deriving DecidableEq, Repr

/-- The dict appended to the processor's `orders` list. -/
structure OrderSummary where
  utxo_id : String
  order_type : String
  bid_token : String
  ask_token : String
  bid_amount : Nat
  ask_amount : Nat
deriving DecidableEq, Repr

/-- `str(token)` (`Token.__str__`), up to its hex/UTF-8 display detail (the
rendering is never inspected by any claim). -/
def tokenStr (t : Token) : String :=
  if t.is_ada then "ADA" else t.policy_id ++ ".." ++ t.name

/-- The attribute lookup `order.bid_amount` in
`BlockProcessor._process_transaction`: neither `BaseOrder` nor
`MinswapV1Order` defines a `bid_amount` attribute (the dataclass fields are
`bid_asset`/`ask_asset`/...; the properties are
`order_type`/`bid_token`/`ask_token`/`fee_and_deposit`), so the lookup raises
`AttributeError`, modelled as `none`. -/
def order_attr_bid_amount (_ : MinswapV1Order) : Option Nat := none

/-- The attribute lookup `order.ask_amount`, likewise undefined on the order
classes: `AttributeError`, modelled as `none`. -/
def order_attr_ask_amount (_ : MinswapV1Order) : Option Nat := none

/-- Building the order dict of `_process_transaction`; the two missing
attributes make this raise, which the surrounding `except` swallows. -/
def build_order_summary (uid : String) (o : MinswapV1Order) :
    Option OrderSummary :=
  match order_attr_bid_amount o, order_attr_ask_amount o with
  | some bidAmt, some askAmt =>
    some ⟨uid, ORDER_TYPE_STR, tokenStr o.bid_token, tokenStr o.ask_token,
      bidAmt, askAmt⟩
  | _, _ => none

/-- `ORDER_ADDRESS_TO_SCRIPT` lookup (the bech32 payment-credential fallback
for addresses outside the table is not modelled; C4's synthetic output sits
at the known order address). -/
def orderAddressToScript (addr : String) : Option String :=
  if addr = ORDER_ADDRESS then some ORDER_SCRIPT_HASH else none

/-- One iteration of the output loop of `_process_transaction`, restricted to
the order path (the pool path appends to the separate `pools` list): skip
outputs without a datum, build the utxo dict with the derived script hash,
and on a successful order parse try to append the summary dict. -/
def process_output (txId : String) (idx : Nat) (out : TxOutput) :
    List OrderSummary :=
  match out.datum with
  | none => []
  | some d =>
    let uid := txId ++ "#" ++ toString idx
    let u : UTxO := ⟨out.address, out.value, orderAddressToScript out.address, none⟩
    if is_order_utxo MINSWAP_ORDER_SCRIPT_HASHES u then
      match build_order_summary uid (create_order u d uid) with
      | some s => [s]
      | none => []
    else []

/-- The orders accumulated by `_process_transaction` over one transaction. -/
def process_transaction_orders (tx : Tx) : List OrderSummary :=
  tx.outputs.enum.flatMap fun e => process_output tx.id e.1 e.2

/-- The `orders` list returned by `BlockProcessor.process_block`. -/
def process_block_orders (b : Block) : List OrderSummary :=
  b.transactions.flatMap process_transaction_orders

/-! ### Claim C4 -/

/-- The synthetic order datum of the end-to-end scenario: buy 5000 of a
token, batcher fee 900_000, deposit 2_500_000. -/
def c4Datum : MinswapV1OrderDatum :=
  ⟨⟨"aa11", none⟩, ⟨"aa11", none⟩, ⟨⟨"cccc", "dddd"⟩, 5000⟩, 900000, 2500000⟩

/-- The synthetic output: at the known order address, carrying only
10_000_000 lovelace (covering fee + deposit) and the valid datum. -/
def c4Output : TxOutput :=
  ⟨ORDER_ADDRESS, [("ada", [("lovelace", 10000000)])], some c4Datum⟩

/-- The synthetic one-transaction block. -/
def c4Block : Block := ⟨[⟨"tx0", [c4Output]⟩]⟩

/-- The utxo dict the processor builds for the synthetic output. -/
def c4UTxO : UTxO :=
  ⟨ORDER_ADDRESS, c4Output.value, orderAddressToScript ORDER_ADDRESS, none⟩

/-- C4 (code bug): the parser does extract the expected order — it is
recognised as an order UTxO, its bid asset is the native currency with the
value minus fees, and its ask amount is the encoded buy amount — but
`_process_transaction` then reads the non-existent `order.bid_amount`
attribute, the `AttributeError` is swallowed, and `process_block` returns
zero orders instead of the one the claim requires. -/
theorem C4_processor_drops_order :
    process_block_orders c4Block = [] ∧
    is_order_utxo MINSWAP_ORDER_SCRIPT_HASHES c4UTxO = true ∧
    (create_order c4UTxO c4Datum "tx0#0").bid_asset.token.is_ada = true ∧
    (create_order c4UTxO c4Datum "tx0#0").bid_asset.amount =
      10000000 - (900000 + 2500000) ∧
    (create_order c4UTxO c4Datum "tx0#0").ask_asset.amount = 5000 ∧
    900000 + 2500000 ≤ adaLovelace c4Output.value ∧
    order_attr_bid_amount (create_order c4UTxO c4Datum "tx0#0") = none ∧
    build_order_summary "tx0#0" (create_order c4UTxO c4Datum "tx0#0") = none := by
  refine ⟨?_, by decide, by decide, by decide, by decide, by decide, rfl, rfl⟩
  decide

/-! ### Chain-sync iteration (src/core/sync/block_iterator.py)

`BlockIterator.iterate_blocks` is an async generator driven by scripted
remote replies.  It is embedded as a trace function: given the list of
replies the remote will deliver (in order) it produces the sequence of
observable events — `nextBlock` requests sent, replies received, blocks
yielded — exactly as the loop interleaves them.  `init_connection`'s
intersection exchange is not part of the reply script; its single priming
`nextBlock` request (whose confirmation reply it discards) is the leading
`reqNext` event of `chain_sync_trace`. -/

/-- One chain-sync reply: a forward roll carrying a block, a backward roll
(rollback), or an unexpected-format reply (the loop's final `else` arm). -/
inductive Reply
  | forward (block : Nat)
  | backward
  | unexpected
deriving DecidableEq, Repr

/-- An observable event of the iteration. -/
inductive SyncEvent
  | reqNext
  | recvReply (r : Reply)
  | yieldBlock (block : Nat)
deriving DecidableEq, Repr

/-- The loop's `if max_blocks and count >= max_blocks` termination test:
Python truthiness means a `max_blocks` of 0 (like None) never stops the
loop. -/
def maxReached (max_blocks : Option Nat) (count : Nat) : Bool :=
  match max_blocks with
  | none => false
  | some m => (decide (m ≠ 0)) && (decide (m ≤ count))

/-- The event trace of `iterate_blocks` run against a scripted reply list:
per iteration, test the limit, receive a reply, stop on a backward roll,
otherwise send the next `nextBlock` request before yielding the current
block (an unexpected reply sends the request but yields nothing).  An
exhausted script means the loop is blocked in `recv`, ending the trace. -/
def iterate_blocks_trace (max_blocks : Option Nat) :
    List Reply → Nat → List SyncEvent
  | [], _ => []
  | r :: rest, count =>
    if maxReached max_blocks count then []
    else
      SyncEvent.recvReply r ::
        match r with
        | Reply.backward => []
        | Reply.forward b =>
          SyncEvent.reqNext :: SyncEvent.yieldBlock b ::
            iterate_blocks_trace max_blocks rest (count + 1)
        | Reply.unexpected =>
          SyncEvent.reqNext :: iterate_blocks_trace max_blocks rest count

/-- The full observable trace for claim C3: the priming `nextBlock` request
from `init_connection` followed by the unlimited iteration over the script. -/
def chain_sync_trace (bs : List Nat) : List SyncEvent :=
  SyncEvent.reqNext ::
    iterate_blocks_trace none (bs.map Reply.forward ++ [Reply.backward]) 0

/-- Blocks yielded along a trace. -/
def yields_of (tr : List SyncEvent) : List Nat :=
  tr.filterMap fun e =>
    match e with
    | SyncEvent.yieldBlock b => some b
    | _ => none

/-- Number of `nextBlock` requests sent along a trace. -/
def req_count (tr : List SyncEvent) : Nat :=
  tr.countP fun e =>
    match e with
    | SyncEvent.reqNext => true
    | _ => false

/-- Events strictly after the first backward-roll reply is observed. -/
def events_after_backward : List SyncEvent → List SyncEvent
  | [] => []
  | SyncEvent.recvReply Reply.backward :: rest => rest
  | _ :: rest => events_after_backward rest

/-- Closed form of the iteration trace over a forward-rolls-then-rollback
script. -/
lemma iterate_blocks_trace_script (bs : List Nat) :
    ∀ c, iterate_blocks_trace none (bs.map Reply.forward ++ [Reply.backward]) c =
      (bs.flatMap fun b => [SyncEvent.recvReply (Reply.forward b),
        SyncEvent.reqNext, SyncEvent.yieldBlock b]) ++
        [SyncEvent.recvReply Reply.backward] := by
  induction bs with
  | nil => intro c; rfl
  | cons b rest ih =>
    intro c
    simp only [List.map_cons, List.cons_append, iterate_blocks_trace, maxReached,
      Bool.false_eq_true, if_false, List.flatMap_cons, List.append_assoc,
      List.cons_append, List.nil_append, List.append_eq]
    rw [ih (c + 1)]

/-! ### Claims C3, C10 -/

/-- C3: against a script of N forward rolls then one backward roll, the
iteration yields exactly the N blocks and terminates; counting the priming
request from `init_connection`, exactly N+1 `nextBlock` requests are sent;
and no event at all — in particular no `nextBlock` request — follows the
backward-roll reply. -/
theorem C3_chain_sync_sequencing (bs : List Nat) :
    yields_of (chain_sync_trace bs) = bs ∧
    req_count (chain_sync_trace bs) = bs.length + 1 ∧
    events_after_backward (chain_sync_trace bs) = [] := by
  unfold chain_sync_trace
  rw [iterate_blocks_trace_script bs 0]
  refine ⟨?_, ?_, ?_⟩
  · induction bs with
    | nil => rfl
    | cons b rest ih =>
      simp only [yields_of, List.flatMap_cons, List.cons_append,
        List.append_assoc, List.nil_append, List.filterMap_cons] at ih ⊢
      simp_all
  · induction bs with
    | nil => rfl
    | cons b rest ih =>
      simp only [req_count, List.flatMap_cons, List.cons_append,
        List.append_assoc, List.nil_append, List.countP_cons] at ih ⊢
      simp_all
  · induction bs with
    | nil => rfl
    | cons b rest ih =>
      simp only [List.flatMap_cons, List.cons_append, List.append_assoc,
        List.nil_append, events_after_backward] at ih ⊢
      exact ih

/-- C10: a `max_blocks` of 0 is Python-falsy, so iteration with limit 0
produces exactly the trace of the unlimited iteration — not a zero-block
stream: on a one-forward-roll script it still yields the block. -/
theorem C10_max_blocks_zero_is_unlimited :
    (∀ (replies : List Reply) (count : Nat),
      iterate_blocks_trace (some 0) replies count =
        iterate_blocks_trace none replies count)
    ∧ iterate_blocks_trace (some 0) [Reply.forward 7] 0 =
        [SyncEvent.recvReply (Reply.forward 7), SyncEvent.reqNext,
          SyncEvent.yieldBlock 7] := by
  have key : ∀ (replies : List Reply) (count : Nat),
      iterate_blocks_trace (some 0) replies count =
        iterate_blocks_trace none replies count := by
    intro replies
    induction replies with
    | nil => intro count; rfl
    | cons r rest ih =>
      intro count
      simp only [iterate_blocks_trace, maxReached]
      cases r with
      | forward b => simp [ih]
      | backward => simp
      | unexpected => simp [ih]
  exact ⟨key, by rw [key]; rfl⟩

end ArbBot
